import Mathlib

/-!
Verification of the muxmon tmux launcher (`launcher.py`).

The launcher's numeric code runs on Python floats; we model that arithmetic
over `ℝ` (exact real arithmetic), which is the intended mathematics of the
scoring formulas.  Integer quantities (`count`, `cols`, `rows`, empties)
are modelled by `ℕ`; `math.ceil(count / cols)` for positive integers is the
ceiling division `(count + cols - 1) / cols`.

Layout names are kept as the strings the Python code uses.
-/

namespace Muxmon

open Classical

/-- `math.ceil(a / b)` for natural `a`, positive natural `b`. -/
def ceil_div (a b : ℕ) : ℕ := (a + b - 1) / b

/-- Default of `--auto-geometry-stack-max-aspect` (launcher.py line 41). -/
noncomputable def AUTO_GEOMETRY_STACK_MAX_ASPECT_DEFAULT : ℝ := 0.95

/-- Default of `--auto-geometry-tall-max-aspect` (launcher.py line 42). -/
noncomputable def AUTO_GEOMETRY_TALL_MAX_ASPECT_DEFAULT : ℝ := 1.25

/-- Default of `--auto-geometry-wide-min-aspect` (launcher.py line 43). -/
noncomputable def AUTO_GEOMETRY_WIDE_MIN_ASPECT_DEFAULT : ℝ := 2.40

/-- Default of `--live-reflow-min-interval-ms` (launcher.py line 44). -/
def LIVE_REFLOW_MIN_INTERVAL_MS_DEFAULT : ℤ := 180

/-- The layout names treated as grid layouts (launcher.py `GRID_LAYOUTS`). -/
def GRID_LAYOUTS : List String :=
  ["grid", "auto", "auto-geometry", "auto-square", "auto-wide", "auto-tall",
   "square", "wide", "tall"]

/-- `_normalize_layout` (launcher.py lines 319-325). -/
def normalize_layout (layout : String) : String :=
  if layout = "grid" then "square"
  else if layout = "wide" then "auto-wide"
  else if layout = "tall" then "auto-tall"
  else layout

/-- `term_aspect = term_cols / max(1.0, float(term_rows))`
(launcher.py line 352). -/
noncomputable def term_aspect (term_cols term_rows : ℕ) : ℝ :=
  (term_cols : ℝ) / max 1.0 (term_rows : ℝ)

/-- `_target_col_row_ratio` (launcher.py lines 328-337). -/
noncomputable def target_col_row_ratio (layout : String) (ta : ℝ) : ℝ :=
  if layout = "auto" then max 0.6 (min 3.0 ta)
  else if layout = "square" ∨ layout = "auto-square" then 1.0
  else if layout = "auto-wide" then max 1.2 (min 4.0 (ta * 1.4))
  else if layout = "auto-tall" then max 0.35 (min 1.0 (ta * 0.7))
  else 1.0

/-- `_row_counts` for `pad_empty=False`: the loop of launcher.py
lines 409-415, one `min(cols, remaining)` entry per remaining row. -/
def row_counts_unpadded : ℕ → ℕ → ℕ → List ℕ
  | 0, _, _ => []
  | r + 1, remaining, cols =>
      min cols remaining :: row_counts_unpadded r (remaining - min cols remaining) cols

/-- `_row_counts` (launcher.py lines 406-415). -/
def row_counts (count rows cols : ℕ) (pad_empty : Bool) : List ℕ :=
  if pad_empty then List.replicate rows cols
  else row_counts_unpadded rows count cols

/-- `max(row_counts) - min(row_counts)` on a nonempty Python list
(launcher.py line 376); `0` on the empty list, which never occurs. -/
def row_imbalance (l : List ℕ) : ℕ :=
  match l with
  | [] => 0
  | h :: t => t.foldl max h - t.foldl min h

/-- The score of one candidate column count, the body of the loop of
`_plan_grid_dims` (launcher.py lines 366-391).  `orig_auto_geom` records
`original_layout == "auto-geometry"`. -/
noncomputable def candidate_score (orig_auto_geom pad_empty : Bool)
    (count : ℕ) (ta target_ratio : ℝ) (cols : ℕ) : ℝ :=
  let rows := ceil_div count cols
  let empties := rows * cols - count
  let ratio : ℝ := (cols : ℝ) / (rows : ℝ)
  let ratio_penalty := |Real.log (max 0.01 ratio / target_ratio)|
  let empty_penalty := (empties : ℝ) * 0.12
  let line_penalty : ℝ := if 4 ≤ count ∧ (rows = 1 ∨ cols = 1) then 1.0 else 0.0
  let imbalance_penalty : ℝ :=
    if pad_empty then 0.0
    else (row_imbalance (row_counts count rows cols false) : ℝ) * 0.22
  let cell_shape_penalty : ℝ :=
    if orig_auto_geom then
      let cell_aspect := ta * ((rows : ℝ) / (cols : ℝ))
      if cell_aspect < 1.15 then (1.15 - cell_aspect) * 1.2 else 0.0
    else 0.0
  ratio_penalty + empty_penalty + line_penalty + imbalance_penalty + cell_shape_penalty

/-- The empty-slot count of a candidate column count
(launcher.py line 368). -/
def candidate_empties (count cols : ℕ) : ℕ := ceil_div count cols * cols - count

/-- One step of the best-candidate selection of `_plan_grid_dims`
(launcher.py lines 393-399): the new candidate `c` replaces the running
best `b` iff it scores strictly lower, or ties on score with strictly
fewer empty slots. -/
noncomputable def better (f : ℕ → ℝ) (e : ℕ → ℕ) (b c : ℕ) : ℕ :=
  if f c < f b ∨ (f c = f b ∧ e c < e b) then c else b

/-- The candidate-selection loop of `_plan_grid_dims`: fold `better` over
the remaining candidates, starting from the first. -/
noncomputable def select_best (f : ℕ → ℝ) (e : ℕ → ℕ) (first : ℕ)
    (rest : List ℕ) : ℕ :=
  rest.foldl (better f e) first

/-- The scoring part of `_plan_grid_dims` (launcher.py lines 363-403):
candidates `cols ∈ [1, count]` (as `1` followed by `[2, …, count]`),
scored by `candidate_score`, best selected by `better`. -/
noncomputable def plan_scored (orig_auto_geom : Bool) (layout : String)
    (count term_cols term_rows : ℕ) (pad_empty : Bool) : ℕ × ℕ :=
  let ta := term_aspect term_cols term_rows
  let tr := target_col_row_ratio layout ta
  let f : ℕ → ℝ := candidate_score orig_auto_geom pad_empty count ta tr
  let cols := select_best f (candidate_empties count) 1 (List.range' 2 (count - 1))
  (cols, ceil_div count cols)

/-- `_plan_grid_dims` (launcher.py lines 340-403). -/
noncomputable def plan_grid_dims (count : ℕ) (layout : String)
    (term_cols term_rows : ℕ) (pad_empty : Bool)
    (stack_max tall_max wide_min : ℝ) : ℕ × ℕ :=
  if layout = "auto-geometry" then
    if 3 ≤ count ∧ term_aspect term_cols term_rows ≤ stack_max then (1, count)
    else if wide_min ≤ term_aspect term_cols term_rows then
      plan_scored true "auto-wide" count term_cols term_rows pad_empty
    else if term_aspect term_cols term_rows ≤ tall_max then
      plan_scored true "auto-tall" count term_cols term_rows pad_empty
    else
      plan_scored true "auto-square" count term_cols term_rows pad_empty
  else plan_scored false layout count term_cols term_rows pad_empty

/-- The candidate score exactly as the specification states it (spec §4.1):
identical to `candidate_score` except that the ratio penalty is
`|ln((cols/rows)/targetRatio)|`, without the code's `max(0.01, ratio)`
clamp.  Used to compare the spec's formula against the code's. -/
noncomputable def spec_candidate_score (orig_auto_geom pad_empty : Bool)
    (count : ℕ) (ta target_ratio : ℝ) (cols : ℕ) : ℝ :=
  let rows := ceil_div count cols
  let empties := rows * cols - count
  let ratio : ℝ := (cols : ℝ) / (rows : ℝ)
  let ratio_penalty := |Real.log (ratio / target_ratio)|
  let empty_penalty := (empties : ℝ) * 0.12
  let line_penalty : ℝ := if 4 ≤ count ∧ (rows = 1 ∨ cols = 1) then 1.0 else 0.0
  let imbalance_penalty : ℝ :=
    if pad_empty then 0.0
    else (row_imbalance (row_counts count rows cols false) : ℝ) * 0.22
  let cell_shape_penalty : ℝ :=
    if orig_auto_geom then
      let cell_aspect := ta * ((rows : ℝ) / (cols : ℝ))
      if cell_aspect < 1.15 then (1.15 - cell_aspect) * 1.2 else 0.0
    else 0.0
  ratio_penalty + empty_penalty + line_penalty + imbalance_penalty + cell_shape_penalty

/-! ### Arithmetic facts about `ceil_div` -/

theorem ceil_div_pos {a b : ℕ} (ha : 1 ≤ a) (hb : 1 ≤ b) : 1 ≤ ceil_div a b := by
  have h : b ≤ a + b - 1 := by omega
  exact (Nat.one_le_div_iff (by omega)).mpr h

theorem ceil_div_mul_lt {a b : ℕ} (hb : 1 ≤ b) : ceil_div a b * b < a + b := by
  have h : ceil_div a b * b ≤ a + b - 1 := Nat.div_mul_le_self (a + b - 1) b
  omega

theorem le_mul_ceil_div (a : ℕ) {b : ℕ} (hb : 1 ≤ b) : a ≤ ceil_div a b * b := by
  rcases Nat.eq_zero_or_pos a with ha | ha
  · simp [ha]
  · have h : a + b - 1 < (ceil_div a b + 1) * b :=
      (Nat.div_lt_iff_lt_mul (by omega)).mp (Nat.lt_succ_self _)
    have h2 : (ceil_div a b + 1) * b = ceil_div a b * b + b := by ring
    omega

theorem ceil_div_le_self {a b : ℕ} (ha : 1 ≤ a) (hb : 1 ≤ b) : ceil_div a b ≤ a := by
  have h : a ≤ b * a := Nat.le_mul_of_pos_left a (by omega)
  exact (Nat.div_le_iff_le_mul_add_pred (by omega)).mpr (by omega)

theorem ceil_div_eq_iff {a b r : ℕ} (ha : 1 ≤ a) (hb : 1 ≤ b) :
    ceil_div a b = r ↔ (r - 1) * b < a ∧ a ≤ r * b := by
  constructor
  · rintro rfl
    refine ⟨?_, le_mul_ceil_div a hb⟩
    have h1 : 1 ≤ ceil_div a b := ceil_div_pos ha hb
    have h2 : ceil_div a b * b < a + b := ceil_div_mul_lt hb
    have h3 : (ceil_div a b - 1) * b = ceil_div a b * b - b := Nat.sub_one_mul _ _
    have h4 : b ≤ ceil_div a b * b := Nat.le_mul_of_pos_left b (by omega)
    omega
  · rintro ⟨h1, h2⟩
    have hle : ceil_div a b ≤ r := by
      have hrb : r * b = b * r := by ring
      exact (Nat.div_le_iff_le_mul_add_pred (by omega)).mpr (by omega)
    have hge : r ≤ ceil_div a b := by
      by_contra hcon
      push_neg at hcon
      have hr1 : ceil_div a b ≤ r - 1 := by omega
      have hmul : ceil_div a b * b ≤ (r - 1) * b := Nat.mul_le_mul_right b hr1
      have := le_mul_ceil_div a hb
      omega
    omega

/-! ### Facts about `row_counts` -/

theorem row_counts_unpadded_closed_form {cols : ℕ} (hcols : 1 ≤ cols) :
    ∀ k rem, k * cols ≤ rem → rem ≤ (k + 1) * cols →
      row_counts_unpadded (k + 1) rem cols =
        List.replicate k cols ++ [rem - k * cols] := by
  intro k
  induction k with
  | zero =>
    intro rem _ hhi
    have hmin : min cols rem = rem := by
      have : (0 + 1) * cols = cols := by ring
      omega
    simp [row_counts_unpadded, hmin]
  | succ n ih =>
    intro rem hlo hhi
    have e1 : (n + 1) * cols = n * cols + cols := by ring
    have e2 : (n + 1 + 1) * cols = n * cols + cols + cols := by ring
    have hcr : cols ≤ rem := by omega
    have hmin : min cols rem = cols := by omega
    have hrec := ih (rem - cols) (by omega) (by omega)
    have hsub : rem - cols - n * cols = rem - (n + 1) * cols := by omega
    show min cols rem :: row_counts_unpadded (n + 1) (rem - min cols rem) cols =
        List.replicate (n + 1) cols ++ [rem - (n + 1) * cols]
    rw [hmin, hrec, hsub, List.replicate_succ, List.cons_append]

/-! ### The candidate-selection fold -/

/-- `a` is at least as good a candidate as `x`: strictly lower score, or
equal score and no more empty slots. -/
def good (f : ℕ → ℝ) (e : ℕ → ℕ) (a x : ℕ) : Prop :=
  f a < f x ∨ (f a = f x ∧ e a ≤ e x)

theorem good_refl (f : ℕ → ℝ) (e : ℕ → ℕ) (a : ℕ) : good f e a a :=
  Or.inr ⟨rfl, le_refl _⟩

theorem good_trans {f : ℕ → ℝ} {e : ℕ → ℕ} {a b c : ℕ}
    (hab : good f e a b) (hbc : good f e b c) : good f e a c := by
  rcases hab with h1 | ⟨h1, h1e⟩ <;> rcases hbc with h2 | ⟨h2, h2e⟩
  · exact Or.inl (lt_trans h1 h2)
  · exact Or.inl (h2 ▸ h1)
  · exact Or.inl (h1 ▸ h2)
  · exact Or.inr ⟨h1.trans h2, le_trans h1e h2e⟩

theorem better_eq_or (f : ℕ → ℝ) (e : ℕ → ℕ) (b c : ℕ) :
    better f e b c = b ∨ better f e b c = c := by
  unfold better
  by_cases h : f c < f b ∨ (f c = f b ∧ e c < e b) <;> simp [h]

theorem good_better_left (f : ℕ → ℝ) (e : ℕ → ℕ) (b c : ℕ) :
    good f e (better f e b c) b := by
  unfold better
  by_cases h : f c < f b ∨ (f c = f b ∧ e c < e b)
  · simp only [h, if_true]
    rcases h with h | ⟨h, he⟩
    · exact Or.inl h
    · exact Or.inr ⟨h, le_of_lt he⟩
  · simp only [h, if_false]
    exact good_refl f e b

theorem good_better_right (f : ℕ → ℝ) (e : ℕ → ℕ) (b c : ℕ) :
    good f e (better f e b c) c := by
  unfold better
  by_cases h : f c < f b ∨ (f c = f b ∧ e c < e b)
  · simp only [h, if_true]
    exact good_refl f e c
  · simp only [h, if_false]
    push_neg at h
    rcases lt_trichotomy (f b) (f c) with hlt | heq | hgt
    · exact Or.inl hlt
    · exact Or.inr ⟨heq, h.2 heq.symm⟩
    · exact absurd hgt (not_lt.mpr h.1)

theorem select_best_mem (f : ℕ → ℝ) (e : ℕ → ℕ) (first : ℕ) (rest : List ℕ) :
    select_best f e first rest ∈ first :: rest := by
  induction rest generalizing first with
  | nil => simp [select_best]
  | cons c t ih =>
    have hstep : select_best f e first (c :: t) = select_best f e (better f e first c) t := rfl
    rw [hstep]
    have h := ih (better f e first c)
    rcases List.mem_cons.mp h with h1 | h1
    · rcases better_eq_or f e first c with hb | hb
      · rw [h1, hb]; exact List.mem_cons_self _ _
      · rw [h1, hb]; exact List.mem_cons.mpr (Or.inr (List.mem_cons_self _ _))
    · exact List.mem_cons.mpr (Or.inr (List.mem_cons.mpr (Or.inr h1)))

theorem select_best_good (f : ℕ → ℝ) (e : ℕ → ℕ) (first : ℕ) (rest : List ℕ) :
    ∀ x ∈ first :: rest, good f e (select_best f e first rest) x := by
  induction rest generalizing first with
  | nil =>
    intro x hx
    rw [List.mem_singleton] at hx
    rw [hx]
    exact good_refl f e first
  | cons c t ih =>
    intro x hx
    have hstep : select_best f e first (c :: t) = select_best f e (better f e first c) t := rfl
    rw [hstep]
    have hself : good f e (select_best f e (better f e first c) t) (better f e first c) :=
      ih (better f e first c) (better f e first c) (List.mem_cons_self _ _)
    rcases List.mem_cons.mp hx with h | h
    · rw [h]
      exact good_trans hself (good_better_left f e first c)
    · rcases List.mem_cons.mp h with h2 | h2
      · rw [h2]
        exact good_trans hself (good_better_right f e first c)
      · exact ih (better f e first c) x (List.mem_cons.mpr (Or.inr h2))

/-! ### Properties of the planner -/

theorem cons_range_eq (count : ℕ) (hc : 1 ≤ count) :
    (1 : ℕ) :: List.range' 2 (count - 1) = List.range' 1 count := by
  cases count with
  | zero => omega
  | succ n =>
    rw [List.range'_succ 1 n 1]
    norm_num

theorem plan_scored_fst_mem (g : Bool) (layout : String) (count tc trr : ℕ)
    (pad : Bool) (hc : 1 ≤ count) :
    (plan_scored g layout count tc trr pad).1 ∈ List.range' 1 count := by
  have h := select_best_mem
    (candidate_score g pad count (term_aspect tc trr)
      (target_col_row_ratio layout (term_aspect tc trr)))
    (candidate_empties count) 1 (List.range' 2 (count - 1))
  rw [cons_range_eq count hc] at h
  exact h

theorem plan_scored_snd (g : Bool) (layout : String) (count tc trr : ℕ)
    (pad : Bool) :
    (plan_scored g layout count tc trr pad).2 =
      ceil_div count (plan_scored g layout count tc trr pad).1 := rfl

theorem plan_scored_good (g : Bool) (layout : String) (count tc trr : ℕ)
    (pad : Bool) (hc : 1 ≤ count) :
    ∀ c ∈ List.range' 1 count,
      good (candidate_score g pad count (term_aspect tc trr)
              (target_col_row_ratio layout (term_aspect tc trr)))
        (candidate_empties count) (plan_scored g layout count tc trr pad).1 c := by
  intro c hcmem
  rw [← cons_range_eq count hc] at hcmem
  exact select_best_good _ _ 1 _ c hcmem

theorem plan_scored_invariants (g : Bool) (layout : String) (count tc trr : ℕ)
    (pad : Bool) (hc : 1 ≤ count) :
    count ≤ (plan_scored g layout count tc trr pad).1 *
        (plan_scored g layout count tc trr pad).2 ∧
      (plan_scored g layout count tc trr pad).1 ≤ count ∧
      (plan_scored g layout count tc trr pad).2 ≤ count ∧
      (plan_scored g layout count tc trr pad).1 *
          (plan_scored g layout count tc trr pad).2 - count <
        (plan_scored g layout count tc trr pad).1 := by
  have hmem := plan_scored_fst_mem g layout count tc trr pad hc
  rw [List.mem_range'_1] at hmem
  obtain ⟨h1, h2⟩ := hmem
  rw [plan_scored_snd g layout count tc trr pad]
  set c := (plan_scored g layout count tc trr pad).1 with hc1
  have hle : count ≤ ceil_div count c * c := le_mul_ceil_div count h1
  have hlt : ceil_div count c * c < count + c := ceil_div_mul_lt h1
  have hros : ceil_div count c ≤ count := ceil_div_le_self hc h1
  have hcomm : c * ceil_div count c = ceil_div count c * c := by ring
  refine ⟨by omega, by omega, hros, by omega⟩

theorem plan_grid_dims_invariants (count : ℕ) (layout : String) (tc trr : ℕ)
    (pad : Bool) (sm tm wm : ℝ) (hc : 1 ≤ count) :
    count ≤ (plan_grid_dims count layout tc trr pad sm tm wm).1 *
        (plan_grid_dims count layout tc trr pad sm tm wm).2 ∧
      (plan_grid_dims count layout tc trr pad sm tm wm).1 ≤ count ∧
      (plan_grid_dims count layout tc trr pad sm tm wm).2 ≤ count ∧
      (plan_grid_dims count layout tc trr pad sm tm wm).1 *
          (plan_grid_dims count layout tc trr pad sm tm wm).2 - count <
        (plan_grid_dims count layout tc trr pad sm tm wm).1 := by
  unfold plan_grid_dims
  split_ifs with hag hstack hwide htall
  · refine ⟨by simpa using le_refl count, by simpa using hc, le_refl count, by simp⟩
  · exact plan_scored_invariants true "auto-wide" count tc trr pad hc
  · exact plan_scored_invariants true "auto-tall" count tc trr pad hc
  · exact plan_scored_invariants true "auto-square" count tc trr pad hc
  · exact plan_scored_invariants false layout count tc trr pad hc

/-- C2: for every count ≥ 1, every grid layout mode, and every terminal
geometry with columns/rows > 0 (any padding policy, any thresholds), the
(cols, rows) returned by the Grid Dimension Planner satisfy
`cols*rows ≥ count`, `cols ≤ count`, `rows ≤ count`, and
`cols*rows - count < cols` (no whole empty row). -/
theorem C2_grid_plan_invariants (count : ℕ) (layout : String) (tc trr : ℕ)
    (pad : Bool) (sm tm wm : ℝ) (hc : 1 ≤ count) (hl : layout ∈ GRID_LAYOUTS)
    (htc : 1 ≤ tc) (htr : 1 ≤ trr) :
    count ≤ (plan_grid_dims count (normalize_layout layout) tc trr pad sm tm wm).1 *
        (plan_grid_dims count (normalize_layout layout) tc trr pad sm tm wm).2 ∧
      (plan_grid_dims count (normalize_layout layout) tc trr pad sm tm wm).1 ≤ count ∧
      (plan_grid_dims count (normalize_layout layout) tc trr pad sm tm wm).2 ≤ count ∧
      (plan_grid_dims count (normalize_layout layout) tc trr pad sm tm wm).1 *
          (plan_grid_dims count (normalize_layout layout) tc trr pad sm tm wm).2 - count <
        (plan_grid_dims count (normalize_layout layout) tc trr pad sm tm wm).1 :=
  plan_grid_dims_invariants count (normalize_layout layout) tc trr pad sm tm wm hc

/-- Witness for C2 at count = 4, layout "square", terminal 160×40. -/
theorem C2_grid_plan_invariants_witness :
    4 ≤ (plan_grid_dims 4 (normalize_layout "square") 160 40 true 1 1 1).1 *
        (plan_grid_dims 4 (normalize_layout "square") 160 40 true 1 1 1).2 ∧
      (plan_grid_dims 4 (normalize_layout "square") 160 40 true 1 1 1).1 ≤ 4 ∧
      (plan_grid_dims 4 (normalize_layout "square") 160 40 true 1 1 1).2 ≤ 4 ∧
      (plan_grid_dims 4 (normalize_layout "square") 160 40 true 1 1 1).1 *
          (plan_grid_dims 4 (normalize_layout "square") 160 40 true 1 1 1).2 - 4 <
        (plan_grid_dims 4 (normalize_layout "square") 160 40 true 1 1 1).1 :=
  C2_grid_plan_invariants 4 "square" 160 40 true 1 1 1 (by norm_num) (by decide)
    (by norm_num) (by norm_num)

/-- C7: for every cols ≥ 1, count ≥ 1, and rows = ceil(count/cols), Row
Distribution with padding enabled returns `rows` entries each equal to
`cols` (summing to rows*cols); with padding disabled it returns entries
filled row-major up to `cols` each — `rows-1` full rows then the
remainder — summing to `count` exactly, with only the last row possibly
shorter than `cols`. -/
theorem C7_row_distribution (count cols rows : ℕ) (hcols : 1 ≤ cols)
    (hcount : 1 ≤ count) (hrows : rows = ceil_div count cols) :
    (row_counts count rows cols true = List.replicate rows cols ∧
      (row_counts count rows cols true).sum = rows * cols) ∧
    (row_counts count rows cols false =
        List.replicate (rows - 1) cols ++ [count - (rows - 1) * cols] ∧
      (row_counts count rows cols false).sum = count ∧
      ∀ x ∈ row_counts count rows cols false, x ≤ cols) := by
  have hiff := (ceil_div_eq_iff hcount hcols).mp hrows.symm
  obtain ⟨hlo, hhi⟩ := hiff
  have hrpos : 1 ≤ rows := by
    rw [hrows]; exact ceil_div_pos hcount hcols
  have hform : row_counts count rows cols false =
      List.replicate (rows - 1) cols ++ [count - (rows - 1) * cols] := by
    have h := row_counts_unpadded_closed_form hcols (rows - 1) count
      (by omega) (by rw [Nat.sub_add_cancel hrpos]; exact hhi)
    have heq : rows - 1 + 1 = rows := by omega
    rw [heq] at h
    simpa [row_counts] using h
  refine ⟨⟨by simp [row_counts], ?_⟩, hform, ?_, ?_⟩
  · simp [row_counts, List.sum_const_nat]
  · rw [hform]
    simp only [List.sum_append, List.sum_cons, List.sum_nil, List.sum_const_nat]
    omega
  · intro x hx
    rw [hform] at hx
    rcases List.mem_append.mp hx with h | h
    · rw [List.eq_of_mem_replicate h]
    · rw [List.mem_singleton] at h
      have hsub : (rows - 1) * cols = rows * cols - cols := Nat.sub_one_mul _ _
      have hcl : cols ≤ rows * cols := Nat.le_mul_of_pos_left cols (by omega)
      omega

/-- Witness for C7 at count = 5, cols = 2, rows = ceil(5/2) = 3. -/
theorem C7_row_distribution_witness :
    (row_counts 5 3 2 true = List.replicate 3 2 ∧
      (row_counts 5 3 2 true).sum = 3 * 2) ∧
    (row_counts 5 3 2 false =
        List.replicate (3 - 1) 2 ++ [5 - (3 - 1) * 2] ∧
      (row_counts 5 3 2 false).sum = 5 ∧
      ∀ x ∈ row_counts 5 3 2 false, x ≤ 2) :=
  C7_row_distribution 5 2 3 (by norm_num) (by norm_num) (by decide)

theorem term_aspect_eq (tc : ℕ) {trr : ℕ} (h : 1 ≤ trr) :
    term_aspect tc trr = (tc : ℝ) / (trr : ℝ) := by
  have h0 : (1 : ℝ) ≤ (trr : ℝ) := by exact_mod_cast h
  have h1 : (1.0 : ℝ) ≤ (trr : ℝ) := by linarith
  unfold term_aspect
  rw [max_eq_right h1]

/-- C3: in auto-geometry mode, if count ≥ 3 and terminalAspect ≤ stackMax
the Planner returns (1, count) without scoring; otherwise it scores with
the Wide target (layout "auto-wide") if terminalAspect ≥ wideMin, the Tall
target if terminalAspect ≤ tallMax, else the Square target.  With the
default thresholds (0.95, 1.25, 2.40): aspect 0.90 (90×100) with count 3
yields the stacked plan (1, 3); aspect 0.95 (95×100) with count 2 does not
trigger the stack guard and falls through to ratio scoring with the Tall
target. -/
theorem C3_auto_geometry_classifier :
    (∀ (count tc trr : ℕ) (pad : Bool) (sm tm wm : ℝ),
        3 ≤ count → term_aspect tc trr ≤ sm →
        plan_grid_dims count "auto-geometry" tc trr pad sm tm wm = (1, count)) ∧
    (∀ (count tc trr : ℕ) (pad : Bool) (sm tm wm : ℝ),
        ¬(3 ≤ count ∧ term_aspect tc trr ≤ sm) → wm ≤ term_aspect tc trr →
        plan_grid_dims count "auto-geometry" tc trr pad sm tm wm =
          plan_scored true "auto-wide" count tc trr pad) ∧
    (∀ (count tc trr : ℕ) (pad : Bool) (sm tm wm : ℝ),
        ¬(3 ≤ count ∧ term_aspect tc trr ≤ sm) → ¬(wm ≤ term_aspect tc trr) →
        term_aspect tc trr ≤ tm →
        plan_grid_dims count "auto-geometry" tc trr pad sm tm wm =
          plan_scored true "auto-tall" count tc trr pad) ∧
    (∀ (count tc trr : ℕ) (pad : Bool) (sm tm wm : ℝ),
        ¬(3 ≤ count ∧ term_aspect tc trr ≤ sm) → ¬(wm ≤ term_aspect tc trr) →
        ¬(term_aspect tc trr ≤ tm) →
        plan_grid_dims count "auto-geometry" tc trr pad sm tm wm =
          plan_scored true "auto-square" count tc trr pad) ∧
    plan_grid_dims 3 "auto-geometry" 90 100 true 0.95 1.25 2.40 = (1, 3) ∧
    plan_grid_dims 2 "auto-geometry" 95 100 true 0.95 1.25 2.40 =
      plan_scored true "auto-tall" 2 95 100 true := by
  refine ⟨?_, ?_, ?_, ?_, ?_, ?_⟩
  · intro count tc trr pad sm tm wm h3 hsm
    simp only [plan_grid_dims]
    rw [if_pos trivial, if_pos ⟨h3, hsm⟩]
  · intro count tc trr pad sm tm wm hstack hwide
    simp only [plan_grid_dims]
    rw [if_pos trivial, if_neg hstack, if_pos hwide]
  · intro count tc trr pad sm tm wm hstack hwide htall
    simp only [plan_grid_dims]
    rw [if_pos trivial, if_neg hstack, if_neg hwide, if_pos htall]
  · intro count tc trr pad sm tm wm hstack hwide htall
    simp only [plan_grid_dims]
    rw [if_pos trivial, if_neg hstack, if_neg hwide, if_neg htall]
  · simp only [plan_grid_dims]
    rw [if_pos trivial, if_pos]
    refine ⟨by norm_num, ?_⟩
    rw [term_aspect_eq 90 (by norm_num)]
    norm_num
  · simp only [plan_grid_dims]
    rw [if_pos trivial, if_neg, if_neg, if_pos]
    · rw [term_aspect_eq 95 (by norm_num)]
      norm_num
    · rw [term_aspect_eq 95 (by norm_num)]
      norm_num
    · rintro ⟨h, -⟩
      omega

/-- Witness for C3: count 4, terminal 50×100 (aspect 0.5 ≤ 0.95) stacks. -/
theorem C3_auto_geometry_classifier_witness :
    plan_grid_dims 4 "auto-geometry" 50 100 true 0.95 1.25 2.40 = (1, 4) :=
  C3_auto_geometry_classifier.1 4 50 100 true 0.95 1.25 2.40 (by norm_num)
    (by rw [term_aspect_eq 50 (by norm_num)]; norm_num)

/-! ### The Grid Dimension Planner scoring claim (C1) -/

theorem plan_grid_dims_not_auto_geom (count : ℕ) (layout : String)
    (tc trr : ℕ) (pad : Bool) (sm tm wm : ℝ) (h : layout ≠ "auto-geometry") :
    plan_grid_dims count layout tc trr pad sm tm wm =
      plan_scored false layout count tc trr pad := by
  rw [plan_grid_dims, if_neg h]

theorem sq4_score_two (ta : ℝ) : candidate_score false true 4 ta 1 2 = 0 := by
  unfold candidate_score
  norm_num [ceil_div]

theorem sq4_score_one_pos (ta : ℝ) : 0 < candidate_score false true 4 ta 1 1 := by
  unfold candidate_score
  norm_num [ceil_div]
  positivity

theorem sq4_score_three_pos (ta : ℝ) : 0 < candidate_score false true 4 ta 1 3 := by
  unfold candidate_score
  norm_num [ceil_div]
  positivity

theorem sq4_score_four_pos (ta : ℝ) : 0 < candidate_score false true 4 ta 1 4 := by
  unfold candidate_score
  norm_num [ceil_div]
  positivity

/-- C1 (counterexample): the claim states the per-candidate score uses the
ratio penalty `|ln((c/rows)/targetRatio)|`, but the code clamps the ratio
to at least 0.01 before taking the logarithm.  At count = 101, candidate
cols = 1 (rows = 101, ratio = 1/101 < 0.01), layout Square, terminal
80×24, the code's candidate score differs from the claimed formula. -/
theorem C1_score_formula_counterexample :
    candidate_score false true 101 (term_aspect 80 24)
        (target_col_row_ratio "square" (term_aspect 80 24)) 1 ≠
      spec_candidate_score false true 101 (term_aspect 80 24)
        (target_col_row_ratio "square" (term_aspect 80 24)) 1 := by
  have htr : target_col_row_ratio "square" (term_aspect 80 24) = 1 := by
    simp [target_col_row_ratio]
    norm_num
  rw [htr]
  unfold candidate_score spec_candidate_score
  norm_num [ceil_div]
  have h1 : Real.log ((1 : ℝ) / 101) < Real.log ((1 : ℝ) / 100) :=
    Real.log_lt_log (by norm_num) (by norm_num)
  have h2 : Real.log ((1 : ℝ) / 100) < 0 := Real.log_neg (by norm_num) (by norm_num)
  rw [abs_of_neg h2, abs_of_neg (show Real.log ((1 : ℝ) / 101) < 0 by linarith)]
  intro h
  linarith

/-- C1 (amended): for every count ≥ 1, terminal columns/rows, and scored
grid layout mode (the Square/Wide/Tall/Auto family; auto-geometry is
handled by the classifier, C3), the Grid Dimension Planner enumerates
candidate column counts c ∈ [1, count] with rows = ceil(count/c), scores
each candidate by `candidate_score` — the claim's formula with the ratio
clamped to `max(0.01, c/rows)` inside the logarithm — and returns the
candidate with minimal score, ties broken by fewest empty slots; the
target ratios are 1.0 for Square, clamp(ta*1.4, 1.2, 4.0) for Wide,
clamp(ta*0.7, 0.35, 1.0) for Tall, clamp(ta, 0.6, 3.0) for Auto.  In
particular, for count = 4, terminal 160×40, layout Square it returns
(cols, rows) = (2, 2). -/
theorem C1_planner_amended :
    (∀ ta : ℝ, target_col_row_ratio "square" ta = 1.0 ∧
        target_col_row_ratio "auto-square" ta = 1.0 ∧
        target_col_row_ratio "auto-wide" ta = max 1.2 (min 4.0 (ta * 1.4)) ∧
        target_col_row_ratio "auto-tall" ta = max 0.35 (min 1.0 (ta * 0.7)) ∧
        target_col_row_ratio "auto" ta = max 0.6 (min 3.0 ta)) ∧
    (∀ (count tc trr : ℕ) (layout : String) (pad : Bool) (sm tm wm : ℝ),
        1 ≤ count →
        layout ∈ ["square", "auto-square", "grid", "wide", "auto-wide",
          "tall", "auto-tall", "auto"] →
        (plan_grid_dims count (normalize_layout layout) tc trr pad sm tm wm).1 ∈
            List.range' 1 count ∧
          (plan_grid_dims count (normalize_layout layout) tc trr pad sm tm wm).2 =
            ceil_div count
              (plan_grid_dims count (normalize_layout layout) tc trr pad sm tm wm).1 ∧
          ∀ c ∈ List.range' 1 count,
            good
              (candidate_score false pad count (term_aspect tc trr)
                (target_col_row_ratio (normalize_layout layout) (term_aspect tc trr)))
              (candidate_empties count)
              (plan_grid_dims count (normalize_layout layout) tc trr pad sm tm wm).1
              c) ∧
    plan_grid_dims 4 "square" 160 40 true AUTO_GEOMETRY_STACK_MAX_ASPECT_DEFAULT
      AUTO_GEOMETRY_TALL_MAX_ASPECT_DEFAULT AUTO_GEOMETRY_WIDE_MIN_ASPECT_DEFAULT
      = (2, 2) := by
  refine ⟨?_, ?_, ?_⟩
  · intro ta
    refine ⟨?_, ?_, ?_, ?_, ?_⟩ <;> simp [target_col_row_ratio]
  · intro count tc trr layout pad sm tm wm hc hmem
    have hne : normalize_layout layout ≠ "auto-geometry" := by
      fin_cases hmem <;> decide
    rw [plan_grid_dims_not_auto_geom count (normalize_layout layout) tc trr pad sm tm wm hne]
    exact ⟨plan_scored_fst_mem false (normalize_layout layout) count tc trr pad hc,
      plan_scored_snd false (normalize_layout layout) count tc trr pad,
      plan_scored_good false (normalize_layout layout) count tc trr pad hc⟩
  · rw [plan_grid_dims, if_neg (show ("square" : String) ≠ "auto-geometry" by decide)]
    have htr : target_col_row_ratio "square" (term_aspect 160 40) = 1 := by
      simp [target_col_row_ratio]
      norm_num
    have h1 : (plan_scored false "square" 4 160 40 true).1 = 2 := by
      show select_best
          (candidate_score false true 4 (term_aspect 160 40)
            (target_col_row_ratio "square" (term_aspect 160 40)))
          (candidate_empties 4) 1 (List.range' 2 (4 - 1)) = 2
      rw [htr]
      set f := candidate_score false true 4 (term_aspect 160 40) 1 with hf
      set e := candidate_empties 4 with he
      have e1 : better f e 1 2 = 2 := by
        unfold better
        rw [if_pos (Or.inl (by rw [hf, sq4_score_two]; exact sq4_score_one_pos (term_aspect 160 40)))]
      have e2 : better f e 2 3 = 2 := by
        unfold better
        rw [if_neg]
        rintro (h | ⟨h, -⟩)
        · rw [hf, sq4_score_two] at h
          have := sq4_score_three_pos (term_aspect 160 40)
          linarith
        · rw [hf, sq4_score_two] at h
          have := sq4_score_three_pos (term_aspect 160 40)
          linarith
      have e3 : better f e 2 4 = 2 := by
        unfold better
        rw [if_neg]
        rintro (h | ⟨h, -⟩)
        · rw [hf, sq4_score_two] at h
          have := sq4_score_four_pos (term_aspect 160 40)
          linarith
        · rw [hf, sq4_score_two] at h
          have := sq4_score_four_pos (term_aspect 160 40)
          linarith
      show select_best f e 1 [2, 3, 4] = 2
      simp [select_best, e1, e2, e3]
    have h2 : (plan_scored false "square" 4 160 40 true).2 = 2 := by
      rw [plan_scored_snd, h1]
      norm_num [ceil_div]
    rw [Prod.ext_iff]
    exact ⟨h1, h2⟩

/-- Witness for C1 (amended) at count = 2, layout "wide", terminal 100×50,
padding disabled. -/
theorem C1_planner_amended_witness :
    (plan_grid_dims 2 (normalize_layout "wide") 100 50 false 1 1 1).1 ∈
        List.range' 1 2 ∧
      (plan_grid_dims 2 (normalize_layout "wide") 100 50 false 1 1 1).2 =
        ceil_div 2 (plan_grid_dims 2 (normalize_layout "wide") 100 50 false 1 1 1).1 ∧
      ∀ c ∈ List.range' 1 2,
        good
          (candidate_score false false 2 (term_aspect 100 50)
            (target_col_row_ratio (normalize_layout "wide") (term_aspect 100 50)))
          (candidate_empties 2)
          (plan_grid_dims 2 (normalize_layout "wide") 100 50 false 1 1 1).1 c :=
  C1_planner_amended.2.1 2 100 50 "wide" false 1 1 1 (by norm_num) (by decide)

/-! ### The ReflowGate (`_reflow_allowed`, launcher.py lines 133-150)

The debounce stamp lives in one small file per session name
(`_reflow_stamp_path`); we model the store for one session as an
`Option ℝ` — the parsed stamp, `none` when the file is missing.
`read_fails` / `write_fails` inject the I/O exceptions the code swallows
with `except Exception: pass`.  `time.time()` values are the `now`
arguments of the attempts. -/

/-- One attempt at the reflow debounce gate (`_reflow_allowed`): returns
(applied?, new stamp state).  With `min_interval_ms <= 0` the gate returns
True immediately, touching no state — this is how `launch` issues the
first reflow after a fresh build (launcher.py lines 660-668 pass
`min_interval_ms=0`). -/
noncomputable def reflow_allowed (min_interval_ms : ℤ) (now : ℝ)
    (stamp : Option ℝ) (read_fails write_fails : Bool) : Bool × Option ℝ :=
  if min_interval_ms ≤ 0 then (true, stamp)
  else
    match (if read_fails then none else stamp) with
    | some prev =>
        if (now - prev) * 1000 < (min_interval_ms : ℝ) then (false, stamp)
        else if write_fails then (true, stamp) else (true, some now)
    | none => if write_fails then (true, stamp) else (true, some now)

/-- A fault-free sequence of gate attempts at the given times, threading
the stamp state; yields each attempt paired with whether it applied. -/
noncomputable def gate_run (min_interval_ms : ℤ) :
    List ℝ → Option ℝ → List (ℝ × Bool) × Option ℝ
  | [], st => ([], st)
  | t :: ts, st =>
      let step := reflow_allowed min_interval_ms t st false false
      let rest := gate_run min_interval_ms ts step.2
      ((t, step.1) :: rest.1, rest.2)

/-- The times of the attempts the gate let through. -/
noncomputable def applied_times (min_interval_ms : ℤ) (ts : List ℝ)
    (st : Option ℝ) : List ℝ :=
  ((gate_run min_interval_ms ts st).1.filter (fun p => p.2)).map (fun p => p.1)

/-- Two instants separated by at least the configured interval
(milliseconds against seconds-valued timestamps). -/
def gap (min_interval_ms : ℤ) (a b : ℝ) : Prop :=
  (min_interval_ms : ℝ) ≤ (b - a) * 1000

theorem reflow_allowed_zero (now : ℝ) (st : Option ℝ) (rf wf : Bool) :
    (reflow_allowed 0 now st rf wf).1 = true := by
  unfold reflow_allowed
  norm_num

theorem reflow_allowed_deny {I : ℤ} (hI : 0 < I) (now prev : ℝ)
    (h : (now - prev) * 1000 < (I : ℝ)) :
    reflow_allowed I now (some prev) false false = (false, some prev) := by
  unfold reflow_allowed
  rw [if_neg (by omega : ¬ I ≤ 0)]
  simp only [Bool.false_eq_true, if_false]
  rw [if_pos h]

theorem reflow_allowed_allow {I : ℤ} (hI : 0 < I) (now prev : ℝ)
    (h : ¬(now - prev) * 1000 < (I : ℝ)) :
    reflow_allowed I now (some prev) false false = (true, some now) := by
  unfold reflow_allowed
  rw [if_neg (by omega : ¬ I ≤ 0)]
  simp only [Bool.false_eq_true, if_false]
  rw [if_neg h]

theorem reflow_allowed_none {I : ℤ} (hI : 0 < I) (now : ℝ) :
    reflow_allowed I now none false false = (true, some now) := by
  unfold reflow_allowed
  rw [if_neg (by omega : ¬ I ≤ 0)]
  simp only [Bool.false_eq_true, if_false]

theorem gate_run_chain {I : ℤ} (hI : 0 < I) :
    ∀ (ts : List ℝ) (st : Option ℝ),
      List.Chain' (gap I) (applied_times I ts st) ∧
      (∀ p, st = some p → List.Chain' (gap I) (p :: applied_times I ts st)) := by
  intro ts
  induction ts with
  | nil =>
    intro st
    constructor
    · simp [applied_times, gate_run]
    · intro p hp
      simp [applied_times, gate_run]
  | cons t ts ih =>
    intro st
    match st with
    | none =>
      have hstep := reflow_allowed_none hI t
      have happ : applied_times I (t :: ts) none = t :: applied_times I ts (some t) := by
        simp [applied_times, gate_run, hstep]
      refine ⟨?_, by intro p hp; simp at hp⟩
      rw [happ]
      exact (ih (some t)).2 t rfl
    | some p =>
      by_cases hd : (t - p) * 1000 < (I : ℝ)
      · have hstep := reflow_allowed_deny hI t p hd
        have happ : applied_times I (t :: ts) (some p) = applied_times I ts (some p) := by
          simp [applied_times, gate_run, hstep]
        refine ⟨by rw [happ]; exact (ih (some p)).1, ?_⟩
        rintro q hq
        have hpq : p = q := by injection hq
        subst hpq
        rw [happ]
        exact (ih (some p)).2 p rfl
      · have hstep := reflow_allowed_allow hI t p hd
        have happ : applied_times I (t :: ts) (some p) = t :: applied_times I ts (some t) := by
          simp [applied_times, gate_run, hstep]
        have hchain : List.Chain' (gap I) (t :: applied_times I ts (some t)) :=
          (ih (some t)).2 t rfl
        refine ⟨by rw [happ]; exact hchain, ?_⟩
        rintro q hq
        have hpq : p = q := by injection hq
        subst hpq
        rw [happ]
        refine List.Chain'.cons ?_ hchain
        unfold gap
        push_neg at hd
        linarith

/-- C4: for every configured minimum interval > 0 and every fault-free
sequence of reflow attempts on one session's gate, any two applied reflows
are at least the interval apart; an attempt made when at least the
interval has elapsed since the stamped (last applied) reflow always
applies; and the first reflow after a fresh build — issued by `launch`
with `min_interval_ms = 0` — always applies. -/
theorem C4_reflow_gate_debounce :
    (∀ (I : ℤ) (ts : List ℝ) (st : Option ℝ), 0 < I →
        List.Pairwise (gap I) (applied_times I ts st)) ∧
    (∀ (I : ℤ) (now prev : ℝ), 0 < I → (I : ℝ) ≤ (now - prev) * 1000 →
        (reflow_allowed I now (some prev) false false).1 = true) ∧
    (∀ (now : ℝ) (st : Option ℝ) (rf wf : Bool),
        (reflow_allowed 0 now st rf wf).1 = true) := by
  refine ⟨?_, ?_, ?_⟩
  · intro I ts st hI
    haveI : IsTrans ℝ (gap I) := ⟨fun a b c hab hbc => by
      unfold gap at *
      have hI0 : (0 : ℝ) ≤ (I : ℝ) := by exact_mod_cast le_of_lt hI
      linarith⟩
    exact List.chain'_iff_pairwise.mp (gate_run_chain hI ts st).1
  · intro I now prev hI h
    rw [reflow_allowed_allow hI now prev (not_lt.mpr h)]
  · exact reflow_allowed_zero

/-- Witness for C4: interval 180 ms, attempts at t = 0, 0.05, 1 from an
absent stamp, plus one attempt 1 s after a stamp at 0. -/
theorem C4_reflow_gate_debounce_witness :
    List.Pairwise (gap 180) (applied_times 180 [0, 0.05, 1] none) ∧
      (reflow_allowed 180 1 (some (0 : ℝ)) false false).1 = true :=
  ⟨C4_reflow_gate_debounce.1 180 [0, 0.05, 1] none (by norm_num),
    C4_reflow_gate_debounce.2.1 180 1 0 (by norm_num) (by norm_num)⟩

/-- C9: the gate fails open on stamp I/O faults: a read failure always
yields True (for any interval); a write failure never changes the returned
verdict; and the gate returns False only when the read succeeded and
showed a stamp closer than the interval — so a storage fault never causes
a reflow to be dropped by the gate. -/
theorem C9_gate_fails_open :
    (∀ (I : ℤ) (now : ℝ) (st : Option ℝ) (wf : Bool),
        (reflow_allowed I now st true wf).1 = true) ∧
    (∀ (I : ℤ) (now : ℝ) (st : Option ℝ) (rf : Bool),
        (reflow_allowed I now st rf true).1 = (reflow_allowed I now st rf false).1) ∧
    (∀ (I : ℤ) (now : ℝ) (st : Option ℝ) (rf wf : Bool),
        (reflow_allowed I now st rf wf).1 = false →
        rf = false ∧ 0 < I ∧ ∃ prev, st = some prev ∧ (now - prev) * 1000 < (I : ℝ)) := by
  refine ⟨?_, ?_, ?_⟩
  · intro I now st wf
    unfold reflow_allowed
    by_cases hI : I ≤ 0
    · rw [if_pos hI]
    · rw [if_neg hI]
      simp only [if_true]
      cases wf <;> simp
  · intro I now st rf
    unfold reflow_allowed
    by_cases hI : I ≤ 0
    · rw [if_pos hI, if_pos hI]
    · rw [if_neg hI, if_neg hI]
      cases rf
      · cases st with
        | none => simp
        | some prev =>
          simp only [Bool.false_eq_true, if_false]
          by_cases hd : (now - prev) * 1000 < (I : ℝ)
          · rw [if_pos hd, if_pos hd]
          · rw [if_neg hd, if_neg hd]
            simp
      · simp
  · intro I now st rf wf h
    unfold reflow_allowed at h
    by_cases hI : I ≤ 0
    · rw [if_pos hI] at h
      simp at h
    · rw [if_neg hI] at h
      cases rf
      · cases st with
        | none =>
          simp only [Bool.false_eq_true, if_false] at h
          cases wf <;> simp_all
        | some prev =>
          simp only [Bool.false_eq_true, if_false] at h
          by_cases hd : (now - prev) * 1000 < (I : ℝ)
          · exact ⟨rfl, by omega, prev, rfl, hd⟩
          · rw [if_neg hd] at h
            cases wf <;> simp_all
      · simp at h
        cases wf <;> simp_all

/-- Witness for C9: a read failure at interval 180 with a fresh stamp
still applies. -/
theorem C9_gate_fails_open_witness :
    (reflow_allowed 180 1 (some (1 : ℝ)) true false).1 = true ∧
      (reflow_allowed 180 1 (some (1 : ℝ)) false true).1 =
        (reflow_allowed 180 1 (some (1 : ℝ)) false false).1 :=
  ⟨C9_gate_fails_open.1 180 1 (some 1) false,
    C9_gate_fails_open.2.1 180 1 (some 1) false⟩

/-! ### Trace model of launch, reflow and main

The tmux-affecting operations of launcher.py are modelled as a list of
`Cmd` values (the trace) that an execution issues, in order.  External
observations (session existence, pane count, window size) and the one
injected build failure come from an environment record. -/

/-- One tmux invocation, by subcommand. -/
inductive Cmd
  | newSession
  | splitWindow
  | respawnPane
  | killSession
  | selectLayout (layout : String)
  | setOption
  | setWindowOption
  | setHook
  | unsetHook
  | selectPane
  | listPanes
  | displayMessage
  | hasSession
  | attachOrSwitch
deriving DecidableEq

/-- Is this a `select-layout` call? -/
def Cmd.isSelectLayout : Cmd → Bool
  | .selectLayout _ => true
  | _ => false

/-- Does this command create, split, respawn or kill panes or the
session? -/
def Cmd.isPaneMutation : Cmd → Bool
  | .newSession => true
  | .splitWindow => true
  | .respawnPane => true
  | .killSession => true
  | _ => false

/-- `_target_tmux_layout` (launcher.py lines 153-187); the grid branch
calls `_plan_grid_dims` with its default `pad_empty=True`. -/
noncomputable def target_tmux_layout (layout : String) (pane_count tc trr : ℕ)
    (sm tm wm : ℝ) : String :=
  let nl := normalize_layout layout
  if nl = "vertical" then "even-vertical"
  else if nl = "horizontal" then "even-horizontal"
  else if nl = "tiled" then "tiled"
  else if nl ∈ GRID_LAYOUTS then
    if (plan_grid_dims pane_count nl tc trr true sm tm wm).1 ≤ 1 then "even-vertical"
    else if (plan_grid_dims pane_count nl tc trr true sm tm wm).2 ≤ 1 then "even-horizontal"
    else "tiled"
  else "tiled"

/-- What a reflow invocation observes about the session. -/
structure ReflowEnv where
  sessionExists : Bool
  paneCount : ℕ
  windowSize : Option (ℕ × ℕ)

/-- `_apply_live_reflow` (launcher.py lines 190-220): session-existence
probe, gate check, pane count, window size, then a single
`select-layout`.  Returns the trace and the gate's new stamp state. -/
noncomputable def apply_live_reflow (env : ReflowEnv) (layout : String)
    (sm tm wm : ℝ) (min_interval_ms : ℤ) (now : ℝ) (stamp : Option ℝ)
    (read_fails write_fails : Bool) : List Cmd × Option ℝ :=
  if env.sessionExists = false then ([Cmd.hasSession], stamp)
  else
    let g := reflow_allowed min_interval_ms now stamp read_fails write_fails
    if g.1 = false then ([Cmd.hasSession], g.2)
    else if env.paneCount ≤ 1 then ([Cmd.hasSession, Cmd.listPanes], g.2)
    else
      match env.windowSize with
      | none => ([Cmd.hasSession, Cmd.listPanes, Cmd.displayMessage], g.2)
      | some (tc, trr) =>
          ([Cmd.hasSession, Cmd.listPanes, Cmd.displayMessage,
            Cmd.selectLayout (target_tmux_layout layout env.paneCount tc trr sm tm wm)],
           g.2)

/-- `_apply_session_options` (launcher.py lines 272-297): two session
options, three unconditional window options, then three border window
options in each flag combination. -/
def apply_session_options_trace (pane_borders active_highlight : Bool) : List Cmd :=
  [Cmd.setOption, Cmd.setOption, Cmd.setWindowOption, Cmd.setWindowOption,
   Cmd.setWindowOption] ++
  (if pane_borders then
    if active_highlight then
      [Cmd.setWindowOption, Cmd.setWindowOption, Cmd.setWindowOption]
    else [Cmd.setWindowOption, Cmd.setWindowOption, Cmd.setWindowOption]
  else [Cmd.setWindowOption, Cmd.setWindowOption, Cmd.setWindowOption])

/-- `_configure_live_reflow_hook` (launcher.py lines 223-259): set or
unset the two hooks (client-resized, client-attached). -/
def configure_live_reflow_hook_trace (enabled : Bool) : List Cmd :=
  if enabled then [Cmd.setHook, Cmd.setHook] else [Cmd.unsetHook, Cmd.unsetHook]

/-- `_split_equal` (launcher.py lines 300-316): `parts - 1` splits. -/
def split_equal_trace (parts : ℕ) : List Cmd :=
  List.replicate (parts - 1) Cmd.splitWindow

/-- The `layout_map` dict of `_launch_linear` (launcher.py lines 466-470). -/
def layout_map (layout : String) : String :=
  if layout = "vertical" then "even-vertical"
  else if layout = "horizontal" then "even-horizontal"
  else "tiled"

/-- `_launch_linear` (launcher.py lines 418-472): new-session, options,
one split per remaining monitor (plus a tiled select-layout per split in
tiled mode), final select-layout and select-pane. -/
def launch_linear_trace (monitors : List String) (layout : String)
    (pb ah : Bool) : List Cmd :=
  [Cmd.newSession] ++ apply_session_options_trace pb ah ++
  (List.replicate (monitors.length - 1)
    ([Cmd.splitWindow] ++
      (if layout = "tiled" then [Cmd.selectLayout "tiled"] else []))).flatten ++
  [Cmd.selectLayout (layout_map layout), Cmd.selectPane]

/-- `_launch_grid` (launcher.py lines 475-546): new-session, options,
list-panes, row splits, list-panes, per-row column splits, list-panes,
one respawn-pane per slot, select-pane. -/
noncomputable def launch_grid_trace (monitors : List String) (layout : String)
    (pb ah : Bool) (tc trr : ℕ) (pad : Bool) (sm tm wm : ℝ) : List Cmd :=
  let p := plan_grid_dims monitors.length layout tc trr pad sm tm wm
  let rc := row_counts monitors.length p.2 p.1 pad
  [Cmd.newSession] ++ apply_session_options_trace pb ah ++
  [Cmd.listPanes] ++ split_equal_trace p.2 ++
  [Cmd.listPanes] ++ (rc.map split_equal_trace).flatten ++
  [Cmd.listPanes] ++ List.replicate rc.sum Cmd.respawnPane ++ [Cmd.selectPane]

/-- Run a build command list against a failure oracle: `failAt = some k`
makes the k-th tmux call raise after being attempted. -/
def run_build (cmds : List Cmd) (failAt : Option ℕ) : List Cmd × Bool :=
  match failAt with
  | none => (cmds, false)
  | some k => if k < cmds.length then (cmds.take (k + 1), true) else (cmds, false)

/-- The inputs and observations of one `launch` call
(launcher.py lines 558-670). -/
structure LaunchEnv where
  monitors : List String
  layout : String
  sessionExists : Bool
  paneBorders : Bool
  activeHighlight : Bool
  liveReflow : Bool
  liveReflowMinIntervalMs : ℤ
  padEmpty : Bool
  termCols : ℕ
  termRows : ℕ
  paneCount : ℕ
  windowSize : Option (ℕ × ℕ)
  stamp : Option ℝ
  now : ℝ
  failAt : Option ℕ
  stackMax : ℝ
  tallMax : ℝ
  wideMin : ℝ

/-- The build phase of a fresh `launch` — the body of the try block
(launcher.py lines 612-646): linear or grid, chosen on the normalized
layout; empty for an unsupported layout, whose ValueError is raised
before any tmux call of the build. -/
noncomputable def build_cmds (env : LaunchEnv) : List Cmd :=
  let nl := normalize_layout env.layout
  if nl = "vertical" ∨ nl = "horizontal" ∨ nl = "tiled" then
    launch_linear_trace env.monitors nl env.paneBorders env.activeHighlight
  else if nl ∈ GRID_LAYOUTS then
    launch_grid_trace env.monitors nl env.paneBorders env.activeHighlight
      env.termCols env.termRows env.padEmpty env.stackMax env.tallMax env.wideMin
  else []

/-- How a `launch` call ends. -/
inductive LaunchResult
  | attached
  | exitUsage
  | buildFailed
deriving DecidableEq

/-- The common tail of both successful `launch` paths (launcher.py
lines 584-602 and 651-670): hook (re)configuration, a live reflow with
`min_interval_ms=0` when enabled, then attach/switch.  The reflow is
issued against the session that was just found or built, hence
`sessionExists := true` in its environment. -/
noncomputable def post_build_trace (env : LaunchEnv) : List Cmd :=
  configure_live_reflow_hook_trace env.liveReflow ++
  (if env.liveReflow then
    (apply_live_reflow ⟨true, env.paneCount, env.windowSize⟩ env.layout
      env.stackMax env.tallMax env.wideMin 0 env.now env.stamp false false).1
  else []) ++
  [Cmd.attachOrSwitch]

/-- `launch` (launcher.py lines 558-670): reconcile an existing session,
or reject an empty monitor list, or build fresh inside a try block whose
handler kills the session and re-raises. -/
noncomputable def launch (env : LaunchEnv) : List Cmd × LaunchResult :=
  if env.sessionExists then
    ([Cmd.hasSession] ++
      apply_session_options_trace env.paneBorders env.activeHighlight ++
      post_build_trace env,
     LaunchResult.attached)
  else if env.monitors = [] then
    ([Cmd.hasSession], LaunchResult.exitUsage)
  else
    let nl := normalize_layout env.layout
    if nl = "vertical" ∨ nl = "horizontal" ∨ nl = "tiled" ∨ nl ∈ GRID_LAYOUTS then
      let r := run_build (build_cmds env) env.failAt
      if r.2 then
        ([Cmd.hasSession] ++ r.1 ++ [Cmd.killSession], LaunchResult.buildFailed)
      else
        ([Cmd.hasSession] ++ r.1 ++ post_build_trace env, LaunchResult.attached)
    else
      ([Cmd.hasSession, Cmd.killSession], LaunchResult.buildFailed)

theorem apply_session_options_no_mutation (pb ah : Bool) :
    ∀ c ∈ apply_session_options_trace pb ah, c.isPaneMutation = false := by
  cases pb <;> cases ah <;> decide

theorem apply_session_options_no_select (pb ah : Bool) :
    (apply_session_options_trace pb ah).countP (fun c => c.isSelectLayout) = 0 := by
  cases pb <;> cases ah <;> decide

theorem configure_hook_no_mutation (en : Bool) :
    ∀ c ∈ configure_live_reflow_hook_trace en, c.isPaneMutation = false := by
  cases en <;> decide

theorem configure_hook_no_select (en : Bool) :
    (configure_live_reflow_hook_trace en).countP (fun c => c.isSelectLayout) = 0 := by
  cases en <;> decide

theorem apply_live_reflow_no_mutation (env : ReflowEnv) (layout : String)
    (sm tm wm : ℝ) (I : ℤ) (now : ℝ) (stamp : Option ℝ) (rf wf : Bool) :
    ∀ c ∈ (apply_live_reflow env layout sm tm wm I now stamp rf wf).1,
      c.isPaneMutation = false := by
  unfold apply_live_reflow
  cases henv : env.sessionExists
  · simp [Cmd.isPaneMutation]
  · simp only [henv]
    by_cases hg : (reflow_allowed I now stamp rf wf).1 = false
    · simp [hg, Cmd.isPaneMutation]
    · by_cases hp : env.paneCount ≤ 1
      · simp [hg, hp, Cmd.isPaneMutation]
      · cases hws : env.windowSize with
        | none => simp [hg, hp, hws, Cmd.isPaneMutation]
        | some ws =>
          simp only [hg, hp, hws, Bool.true_eq_false, if_false, if_neg hp]
          rcases ws with ⟨tc, trr⟩
          intro c hc
          simp at hc
          rcases hc with h | h | h | h <;> subst h <;> rfl

theorem apply_live_reflow_select_count_low (env : ReflowEnv) (layout : String)
    (sm tm wm : ℝ) (I : ℤ) (now : ℝ) (stamp : Option ℝ) (rf wf : Bool)
    (h : env.paneCount ≤ 1 ∨ env.windowSize = none) :
    ((apply_live_reflow env layout sm tm wm I now stamp rf wf).1.countP
      (fun c => c.isSelectLayout)) = 0 := by
  unfold apply_live_reflow
  cases henv : env.sessionExists
  · simp [Cmd.isSelectLayout]
  · simp only [henv]
    by_cases hg : (reflow_allowed I now stamp rf wf).1 = false
    · simp [hg, Cmd.isSelectLayout]
    · by_cases hp : env.paneCount ≤ 1
      · simp [hg, hp, Cmd.isSelectLayout]
      · cases hws : env.windowSize with
        | none => simp [hg, hp, hws, Cmd.isSelectLayout]
        | some ws =>
          rcases h with h | h
          · omega
          · rw [hws] at h
            exact absurd h (by simp)

theorem apply_live_reflow_select_count_le_one (env : ReflowEnv) (layout : String)
    (sm tm wm : ℝ) (I : ℤ) (now : ℝ) (stamp : Option ℝ) (rf wf : Bool) :
    ((apply_live_reflow env layout sm tm wm I now stamp rf wf).1.countP
      (fun c => c.isSelectLayout)) ≤ 1 := by
  unfold apply_live_reflow
  cases henv : env.sessionExists
  · simp [Cmd.isSelectLayout]
  · simp only [henv]
    by_cases hg : (reflow_allowed I now stamp rf wf).1 = false
    · simp [hg, Cmd.isSelectLayout]
    · by_cases hp : env.paneCount ≤ 1
      · simp [hg, hp, Cmd.isSelectLayout]
      · cases hws : env.windowSize with
        | none => simp [hg, hp, hws, Cmd.isSelectLayout]
        | some ws =>
          rcases ws with ⟨tc, trr⟩
          simp [hg, hp, hws, Cmd.isSelectLayout]

theorem apply_live_reflow_select_count_one (env : ReflowEnv) (layout : String)
    (sm tm wm : ℝ) (I : ℤ) (now : ℝ) (stamp : Option ℝ) (rf wf : Bool)
    (hs : env.sessionExists = true)
    (hg : (reflow_allowed I now stamp rf wf).1 = true)
    (hp : 2 ≤ env.paneCount) (ws : ℕ × ℕ) (hws : env.windowSize = some ws) :
    ((apply_live_reflow env layout sm tm wm I now stamp rf wf).1.countP
      (fun c => c.isSelectLayout)) = 1 := by
  unfold apply_live_reflow
  rcases ws with ⟨tc, trr⟩
  simp [hs, hg, hws, show ¬ env.paneCount ≤ 1 by omega, Cmd.isSelectLayout]

/-- C10: a reflow invocation with at most one pane, or with an unreadable
window size (or a missing session, or a denied gate), issues no layout
change; it never issues a pane-creating, pane-killing, or respawning
command; and when it acts — session present, gate open, at least two
panes, readable window size — it issues exactly one select-layout call. -/
theorem C10_live_reflow_frame :
    ∀ (env : ReflowEnv) (layout : String) (sm tm wm : ℝ) (I : ℤ) (now : ℝ)
      (stamp : Option ℝ) (rf wf : Bool),
      (env.paneCount ≤ 1 ∨ env.windowSize = none →
        ((apply_live_reflow env layout sm tm wm I now stamp rf wf).1.countP
          (fun c => c.isSelectLayout)) = 0) ∧
      (∀ c ∈ (apply_live_reflow env layout sm tm wm I now stamp rf wf).1,
        c.isPaneMutation = false) ∧
      (env.sessionExists = true →
        (reflow_allowed I now stamp rf wf).1 = true →
        2 ≤ env.paneCount →
        ∀ ws, env.windowSize = some ws →
        ((apply_live_reflow env layout sm tm wm I now stamp rf wf).1.countP
          (fun c => c.isSelectLayout)) = 1) := by
  intro env layout sm tm wm I now stamp rf wf
  exact ⟨apply_live_reflow_select_count_low env layout sm tm wm I now stamp rf wf,
    apply_live_reflow_no_mutation env layout sm tm wm I now stamp rf wf,
    fun hs hg hp ws hws =>
      apply_live_reflow_select_count_one env layout sm tm wm I now stamp rf wf
        hs hg hp ws hws⟩

/-- Witness for C10: one pane (reflow skipped) and the acting case at
2 panes, 160×40, interval 0. -/
theorem C10_live_reflow_frame_witness :
    ((apply_live_reflow ⟨true, 1, some (160, 40)⟩ "auto" 1 1 1 0 0 none
        false false).1.countP (fun c => c.isSelectLayout)) = 0 ∧
      ((apply_live_reflow ⟨true, 2, some (160, 40)⟩ "auto" 1 1 1 0 0 none
          false false).1.countP (fun c => c.isSelectLayout)) = 1 :=
  ⟨(C10_live_reflow_frame ⟨true, 1, some (160, 40)⟩ "auto" 1 1 1 0 0 none
      false false).1 (Or.inl (by norm_num)),
    (C10_live_reflow_frame ⟨true, 2, some (160, 40)⟩ "auto" 1 1 1 0 0 none
        false false).2.2 rfl (reflow_allowed_zero 0 none false false)
      (by norm_num) (160, 40) rfl⟩

/-- C6 (counterexample): the claim says reconciling an existing session
changes only cosmetic options and hook registration, but with live reflow
enabled the reconcile path also issues a `select-layout` (launcher.py
lines 593-601): an existing session with 2 panes, window 160×40,
live reflow on. -/
theorem C6_reconcile_counterexample :
    ((launch ⟨["cpu"], "auto", true, true, false, true, 180, true, 160, 40, 2,
        some (160, 40), none, 0, none, 0.95, 1.25, 2.40⟩).1.any
      (fun c => c.isSelectLayout)) = true := by
  simp [launch, post_build_trace, apply_live_reflow, reflow_allowed,
    apply_session_options_trace, configure_live_reflow_hook_trace,
    Cmd.isSelectLayout]

/-- C6 (amended): reconciling an existing session never creates, splits,
respawns, or kills panes or the session; it ends by attaching/switching;
with live reflow off only cosmetic options and hook registration are
issued; and with live reflow on additionally at most one select-layout
(the immediate reflow) is issued. -/
theorem C6_reconcile_amended :
    ∀ env : LaunchEnv, env.sessionExists = true →
      (∀ c ∈ (launch env).1, c.isPaneMutation = false) ∧
      (launch env).1.getLast? = some Cmd.attachOrSwitch ∧
      (env.liveReflow = false →
        ((launch env).1.countP (fun c => c.isSelectLayout)) = 0) ∧
      ((launch env).1.countP (fun c => c.isSelectLayout)) ≤ 1 := by
  intro env hs
  unfold launch
  rw [if_pos hs]
  unfold post_build_trace
  refine ⟨?_, ?_, ?_, ?_⟩
  · intro c hc
    rcases List.mem_append.mp hc with h | h
    · rcases List.mem_append.mp h with h | h
      · rw [List.mem_singleton] at h
        subst h
        rfl
      · exact apply_session_options_no_mutation _ _ c h
    · rcases List.mem_append.mp h with h | h
      · rcases List.mem_append.mp h with h | h
        · exact configure_hook_no_mutation _ c h
        · by_cases hl : env.liveReflow = true
          · rw [if_pos hl] at h
            exact apply_live_reflow_no_mutation _ _ _ _ _ _ _ _ _ _ c h
          · rw [if_neg hl] at h
            simp at h
      · rw [List.mem_singleton] at h
        subst h
        rfl
  · simp [List.getLast?_cons, List.getLast?_append, List.getLast?_concat]
  · intro hl
    simp only [List.countP_append, hl, Bool.false_eq_true, if_false]
    have h1 : ([Cmd.hasSession] : List Cmd).countP (fun c => c.isSelectLayout) = 0 := by
      decide
    have h2 := apply_session_options_no_select env.paneBorders env.activeHighlight
    have h3 := configure_hook_no_select false
    have h4 : ([Cmd.attachOrSwitch] : List Cmd).countP (fun c => c.isSelectLayout) = 0 := by
      decide
    have h5 : (([] : List Cmd)).countP (fun c => c.isSelectLayout) = 0 := by decide
    omega
  · simp only [List.countP_append]
    have h1 : ([Cmd.hasSession] : List Cmd).countP (fun c => c.isSelectLayout) = 0 := by
      decide
    have h2 := apply_session_options_no_select env.paneBorders env.activeHighlight
    have h3 := configure_hook_no_select env.liveReflow
    have h4 : ([Cmd.attachOrSwitch] : List Cmd).countP (fun c => c.isSelectLayout) = 0 := by
      decide
    have h5 : ((if env.liveReflow = true then
        (apply_live_reflow ⟨true, env.paneCount, env.windowSize⟩ env.layout
          env.stackMax env.tallMax env.wideMin 0 env.now env.stamp false false).1
      else []).countP (fun c => c.isSelectLayout)) ≤ 1 := by
      by_cases hl : env.liveReflow = true
      · rw [if_pos hl]
        exact apply_live_reflow_select_count_le_one _ _ _ _ _ _ _ _ _ _
      · rw [if_neg hl]
        decide
    omega

/-- Witness for C6 (amended): an existing session with live reflow off. -/
theorem C6_reconcile_amended_witness :
    (∀ c ∈ (launch ⟨["cpu"], "auto", true, true, false, false, 180, true, 160,
        40, 2, some (160, 40), none, 0, none, 0.95, 1.25, 2.40⟩).1,
      c.isPaneMutation = false) ∧
      (launch ⟨["cpu"], "auto", true, true, false, false, 180, true, 160, 40, 2,
          some (160, 40), none, 0, none, 0.95, 1.25, 2.40⟩).1.getLast? =
        some Cmd.attachOrSwitch :=
  ⟨(C6_reconcile_amended ⟨["cpu"], "auto", true, true, false, false, 180, true,
      160, 40, 2, some (160, 40), none, 0, none, 0.95, 1.25, 2.40⟩ rfl).1,
    (C6_reconcile_amended ⟨["cpu"], "auto", true, true, false, false, 180, true,
        160, 40, 2, some (160, 40), none, 0, none, 0.95, 1.25, 2.40⟩ rfl).2.1⟩

/-- C5: on a fresh build (session did not exist, monitors nonempty), if
the launch ends in a build failure then the last tmux command issued is
kill-session (teardown precedes the propagated error); and any failing
build step does end the launch in a build failure. -/
theorem C5_fresh_build_teardown :
    ∀ env : LaunchEnv, env.sessionExists = false → env.monitors ≠ [] →
      ((launch env).2 = LaunchResult.buildFailed →
        (launch env).1.getLast? = some Cmd.killSession) ∧
      ((run_build (build_cmds env) env.failAt).2 = true →
        (launch env).2 = LaunchResult.buildFailed) := by
  intro env hs hm
  constructor
  · intro hfail
    unfold launch at *
    rw [hs] at hfail ⊢
    simp only [Bool.false_eq_true, if_false, if_neg hm] at hfail ⊢
    by_cases hsupp : (normalize_layout env.layout = "vertical" ∨
        normalize_layout env.layout = "horizontal" ∨
        normalize_layout env.layout = "tiled" ∨
        normalize_layout env.layout ∈ GRID_LAYOUTS)
    · rw [if_pos hsupp] at hfail ⊢
      by_cases hr : (run_build (build_cmds env) env.failAt).2
      · rw [if_pos hr]
        rw [show [Cmd.hasSession] ++ (run_build (build_cmds env) env.failAt).1 ++
            [Cmd.killSession] =
            ([Cmd.hasSession] ++ (run_build (build_cmds env) env.failAt).1) ++
              [Cmd.killSession] by simp [List.append_assoc]]
        exact List.getLast?_concat _
      · rw [if_neg hr] at hfail
        simp at hfail
    · rw [if_neg hsupp]
      rfl
  · intro hr
    unfold launch
    rw [hs]
    simp only [Bool.false_eq_true, if_false, if_neg hm]
    by_cases hsupp : (normalize_layout env.layout = "vertical" ∨
        normalize_layout env.layout = "horizontal" ∨
        normalize_layout env.layout = "tiled" ∨
        normalize_layout env.layout ∈ GRID_LAYOUTS)
    · rw [if_pos hsupp, if_pos hr]
    · rw [if_neg hsupp]

/-- Witness for C5: a fresh vertical launch of two monitors whose first
tmux call (new-session) fails. -/
theorem C5_fresh_build_teardown_witness :
    (launch ⟨["cpu", "gpu"], "vertical", false, true, false, false, 180, true,
        160, 40, 0, none, none, 0, some 0, 0.95, 1.25, 2.40⟩).1.getLast? =
      some Cmd.killSession ∧
      (launch ⟨["cpu", "gpu"], "vertical", false, true, false, false, 180, true,
          160, 40, 0, none, none, 0, some 0, 0.95, 1.25, 2.40⟩).2 =
        LaunchResult.buildFailed := by
  have h := C5_fresh_build_teardown
    ⟨["cpu", "gpu"], "vertical", false, true, false, false, 180, true,
      160, 40, 0, none, none, 0, some 0, 0.95, 1.25, 2.40⟩ rfl (by simp)
  have hfail := h.2 (by
    simp [run_build, build_cmds, normalize_layout, launch_linear_trace,
      apply_session_options_trace])
  exact ⟨h.1 hfail, hfail⟩

/-! ### The registry and main-entry validation (launcher.py `main`) -/

/-- The monitor registry after loading all monitor modules
(muxmon/cpu.py, gpu.py, memory.py, net.py, storage.py each register one
class in `muxmon.REGISTRY`). -/
def REGISTRY : List String := ["cpu", "gpu", "memory", "net", "storage"]

/-- `muxmon.ALIASES` (muxmon/__init__.py lines 12-16). -/
def ALIASES : List (String × String) :=
  [("mem", "memory"), ("disk", "storage"), ("io", "storage")]

/-- `muxmon.resolve` (muxmon/__init__.py lines 25-27). -/
def resolve (name : String) : String := (ALIASES.lookup name).getD name

/-- The monitor resolution loop of `main` (launcher.py lines 869-880):
per item in order, an unknown canonical name or an unavailable monitor
aborts; `available` is the `is_available()` oracle. -/
def resolve_monitors (available : String → Bool) : List String → Option (List String)
  | [] => some []
  | m :: rest =>
      if resolve m ∉ REGISTRY then none
      else if available (resolve m) = false then none
      else
        match resolve_monitors available rest with
        | some l => some (resolve m :: l)
        | none => none

/-- The parsed command line and system facts `main` consults. -/
structure MainArgs where
  monitors : List String
  allFlag : Bool
  listFlag : Bool
  internalReflow : Bool
  stackMax : ℝ
  tallMax : ℝ
  wideMin : ℝ
  liveReflowMinIntervalMs : ℤ
  available : String → Bool

/-- How `main` ends: a process exit with a code, or handing over to the
attach path. -/
inductive MainResult
  | exited (code : ℕ)
  | launched

/-- `main` (launcher.py lines 680-898) up to the hand-over to `launch`:
the threshold and interval validations go through `parser.error`, which
exits with status 2 (argparse); the no-monitors, unknown-monitor and
unavailable-monitor paths exit with status 1; the internal-reflow and
--list branches return/exit 0.  `reflowTrace` and `launchRun` stand for
the traces of the respective subcalls. -/
noncomputable def main_model (a : MainArgs) (reflowTrace : List Cmd)
    (launchRun : List Cmd × LaunchResult) : List Cmd × MainResult :=
  if a.stackMax ≤ 0 then ([], MainResult.exited 2)
  else if a.tallMax ≤ 0 then ([], MainResult.exited 2)
  else if a.wideMin ≤ 0 then ([], MainResult.exited 2)
  else if a.tallMax < a.stackMax then ([], MainResult.exited 2)
  else if a.wideMin < a.tallMax then ([], MainResult.exited 2)
  else if a.liveReflowMinIntervalMs < 0 then ([], MainResult.exited 2)
  else if a.internalReflow then (reflowTrace, MainResult.exited 0)
  else if a.listFlag then ([], MainResult.exited 0)
  else
    let monitors := if a.allFlag then REGISTRY.filter a.available else a.monitors
    if monitors = [] then ([], MainResult.exited 1)
    else
      match resolve_monitors a.available monitors with
      | none => ([], MainResult.exited 1)
      | some _ =>
          (launchRun.1,
            match launchRun.2 with
            | LaunchResult.attached => MainResult.launched
            | LaunchResult.exitUsage => MainResult.exited 1
            | LaunchResult.buildFailed => MainResult.exited 1)

theorem resolve_monitors_none_iff (available : String → Bool) :
    ∀ l : List String,
      resolve_monitors available l = none ↔
        ∃ m ∈ l, resolve m ∉ REGISTRY ∨ available (resolve m) = false := by
  intro l
  induction l with
  | nil => simp [resolve_monitors]
  | cons m rest ih =>
    unfold resolve_monitors
    by_cases h1 : resolve m ∉ REGISTRY
    · simp only [h1, if_true]
      constructor
      · intro _
        exact ⟨m, List.mem_cons_self _ _, Or.inl h1⟩
      · intro _
        trivial
    · rw [if_neg h1]
      by_cases h2 : available (resolve m) = false
      · simp only [h2, if_true]
        constructor
        · intro _
          exact ⟨m, List.mem_cons_self _ _, Or.inr h2⟩
        · intro _
          trivial
      · rw [if_neg h2]
        constructor
        · intro h
          rcases hr : resolve_monitors available rest with _ | l2
          · exact ⟨(ih.mp hr).choose, List.mem_cons.mpr (Or.inr (ih.mp hr).choose_spec.1),
              (ih.mp hr).choose_spec.2⟩
          · rw [hr] at h
            simp at h
        · rintro ⟨x, hx, hbad⟩
          rcases List.mem_cons.mp hx with hx | hx
          · subst hx
            rcases hbad with hb | hb
            · exact absurd hb h1
            · exact absurd hb h2
          · have := ih.mpr ⟨x, hx, hbad⟩
            rw [this]

/-- C8 (counterexample): the claim says out-of-order aspect thresholds
exit with code 1, but they are reported through `parser.error`, which
exits with status 2: stackMax = 2.0 > tallMax = 1.0. -/
theorem C8_exit_codes_counterexample :
    (main_model ⟨[], false, false, false, 2.0, 1.0, 3.0, 180, fun _ => true⟩ []
        ([], LaunchResult.attached)).2 = MainResult.exited 2 ∧
      (main_model ⟨[], false, false, false, 2.0, 1.0, 3.0, 180, fun _ => true⟩ []
          ([], LaunchResult.attached)) = ([], MainResult.exited 2) := by
  unfold main_model
  norm_num

/-- C8 (amended): a user/validation error aborts before any tmux command:
out-of-order thresholds exit with code 2 (via the argument parser);
with valid thresholds and the hidden internal-reflow and --list flags
unset, an empty effective monitor list, an unknown item, or an
unavailable item exit with code 1 — in every case with an empty command
trace. -/
theorem C8_exit_codes_amended :
    (∀ (a : MainArgs) (rt : List Cmd) (lr : List Cmd × LaunchResult),
        0 < a.stackMax → 0 < a.tallMax → 0 < a.wideMin →
        (a.tallMax < a.stackMax ∨ a.wideMin < a.tallMax) →
        main_model a rt lr = ([], MainResult.exited 2)) ∧
    (∀ (a : MainArgs) (rt : List Cmd) (lr : List Cmd × LaunchResult),
        0 < a.stackMax → a.stackMax ≤ a.tallMax → a.tallMax ≤ a.wideMin →
        0 ≤ a.liveReflowMinIntervalMs →
        a.internalReflow = false → a.listFlag = false →
        (if a.allFlag then REGISTRY.filter a.available else a.monitors) = [] →
        main_model a rt lr = ([], MainResult.exited 1)) ∧
    (∀ (a : MainArgs) (rt : List Cmd) (lr : List Cmd × LaunchResult),
        0 < a.stackMax → a.stackMax ≤ a.tallMax → a.tallMax ≤ a.wideMin →
        0 ≤ a.liveReflowMinIntervalMs →
        a.internalReflow = false → a.listFlag = false →
        (∃ m ∈ (if a.allFlag then REGISTRY.filter a.available else a.monitors),
          resolve m ∉ REGISTRY ∨ a.available (resolve m) = false) →
        main_model a rt lr = ([], MainResult.exited 1)) := by
  refine ⟨?_, ?_, ?_⟩
  · intro a rt lr h1 h2 h3 hd
    unfold main_model
    rw [if_neg (not_le.mpr h1), if_neg (not_le.mpr h2), if_neg (not_le.mpr h3)]
    by_cases h4 : a.tallMax < a.stackMax
    · rw [if_pos h4]
    · rcases hd with hd | hd
      · exact absurd hd h4
      · rw [if_neg h4, if_pos hd]
  · intro a rt lr h1 h12 h23 hint hir hlf hempty
    have h2 : 0 < a.tallMax := lt_of_lt_of_le h1 h12
    have h3 : 0 < a.wideMin := lt_of_lt_of_le h2 h23
    unfold main_model
    rw [if_neg (not_le.mpr h1), if_neg (not_le.mpr h2), if_neg (not_le.mpr h3),
      if_neg (not_lt.mpr h12), if_neg (not_lt.mpr h23), if_neg (not_lt.mpr hint),
      hir, hlf]
    simp only [Bool.false_eq_true, if_false]
    rw [if_pos hempty]
  · intro a rt lr h1 h12 h23 hint hir hlf hex
    have h2 : 0 < a.tallMax := lt_of_lt_of_le h1 h12
    have h3 : 0 < a.wideMin := lt_of_lt_of_le h2 h23
    unfold main_model
    rw [if_neg (not_le.mpr h1), if_neg (not_le.mpr h2), if_neg (not_le.mpr h3),
      if_neg (not_lt.mpr h12), if_neg (not_lt.mpr h23), if_neg (not_lt.mpr hint),
      hir, hlf]
    simp only [Bool.false_eq_true, if_false]
    by_cases hempty : (if a.allFlag then REGISTRY.filter a.available else a.monitors) = []
    · rw [if_pos hempty]
    · rw [if_neg hempty,
        (resolve_monitors_none_iff a.available _).mpr hex]

/-- Witness for C8 (amended): an unknown monitor name "nope" with valid
thresholds exits 1 with no tmux command issued. -/
theorem C8_exit_codes_amended_witness :
    main_model ⟨["nope"], false, false, false, 0.95, 1.25, 2.40, 180,
        fun _ => true⟩ [] ([], LaunchResult.attached) =
      ([], MainResult.exited 1) :=
  C8_exit_codes_amended.2.2
    ⟨["nope"], false, false, false, 0.95, 1.25, 2.40, 180, fun _ => true⟩ []
    ([], LaunchResult.attached) (by norm_num) (by norm_num) (by norm_num)
    (by norm_num) rfl rfl
    ⟨"nope", by simp, Or.inl (by decide)⟩

end Muxmon
